/-
Verification of the New Look scraper (new_look_scraper.py).

The script is a single linear pipeline: fetch paginated JSON from an API,
extract product records, download images, and write semicolon-delimited rows
to a CSV file.  We give a shallow embedding of its functions:

* Python values handed around as JSON dictionaries become the inductive
  `PyVal`; dictionary subscripting, list indexing and truthiness are modelled
  by `PyVal.getItem`, `PyVal.index` and `pyTruthy`, returning `Option` where
  Python would raise (an exception caught by the surrounding `try` is a
  `none`/`Except.error` at the call site).
* `get_response` (the HTTP fetcher with retry) is modelled over an oracle
  `attempts : Nat → AttemptOutcome` giving the outcome of each
  `requests.get` call, and returns the event trace (requests issued,
  `time.sleep` calls) alongside its result.
* The network at the `get_json` interface is an oracle `getJson : Nat →
  Option PyVal` (the result of `get_json(page)`: `none` models the Python
  return value `False`), and image fetching is an oracle
  `imageResp : String → Option Response` (the result of `get_response(url)`).
* The filesystem visible to the claims is the CSV file, a list of rows
  (each row a list of field strings; the csv writer joins them with `;`),
  and the image files, an association list from path to byte content where
  an `open(..., 'wb')` prepends the newest binding.
* `BeautifulSoup(...).get_text()` is an external library call; the scraper
  model is parameterized over it as `stripHtml : String → String`.  The
  whitespace collapsing applied after it, `re.sub(r'\s+', ' ', ...)`, is
  modelled concretely by `collapse_ws`.
* The image-directory creation in `scrape` (`os.mkdir(IMAGE_DIR)`) is
  modelled as succeeding; no claim concerns its failure.
-/
import Mathlib

namespace NewLookScraper

/-! ## Configuration constants (module-level constants of the script) -/

/-- Timeout for web server response (seconds). -/
def TIMEOUT : Nat := 5

/-- Maximum retries count for executing request if an error occurred. -/
def MAX_RETRIES : Nat := 3

/-- The delay after executing an HTTP request (seconds). -/
def SLEEP_TIME : Nat := 1

/-- Base URL for the New Look site. -/
def BASE_URL : String := "https://www.newlook.com/uk"

/-- Default filename for saving scraped data. -/
def DEFAULT_FILENAME : String := "new_look.csv"

/-- Directory name for saving scraped images. -/
def IMAGE_DIR : String := "img"

/-! ## Python value model -/

/-- A Python value as it appears in the JSON dictionaries the script handles. -/
inductive PyVal where
  | str : String → PyVal
  | int : Int → PyVal
  | bool : Bool → PyVal
  | pyNone : PyVal
  | list : List PyVal → PyVal
  | dict : List (String × PyVal) → PyVal
deriving Repr

/-- Dictionary subscript `d[k]`: `none` models the `KeyError` raised on a
missing key, and the `TypeError` raised when subscripting a non-dict with a
string key. -/
def PyVal.getItem : PyVal → String → Option PyVal
  | .dict kvs, k => (kvs.find? (fun p => p.1 = k)).map (fun p => p.2)
  | _, _ => none

/-- List/str subscript `v[i]`: `none` models `IndexError` on an
out-of-range index and `TypeError` on a non-subscriptable value. -/
def PyVal.index : PyVal → Nat → Option PyVal
  | .list l, i => l.get? i
  | .str s, i => (s.toList.get? i).map (fun c => .str (String.singleton c))
  | _, _ => none

/-- A Python value where the script needs an actual `str` (string
concatenation, `BeautifulSoup` input): anything else raises `TypeError`. -/
def PyVal.asStr : PyVal → Option String
  | .str s => some s
  | _ => none

/-- Python truthiness, as used by `if not json`, `if not page_count`, `if not r`. -/
def pyTruthy : PyVal → Bool
  | .str s => !s.isEmpty
  | .int n => n != 0
  | .bool b => b
  | .pyNone => false
  | .list l => !l.isEmpty
  | .dict kvs => !kvs.isEmpty

/-- `str(v)` as applied by `csv.writer.writerow` to each cell.  Strings pass
through unchanged; containers render via their `repr` (modelled without
escape sequences, which no scraped field in the claims exercises). -/
def pyStr : PyVal → String
  | .str s => s
  | .int n => toString n
  | .bool b => if b then "True" else "False"
  | .pyNone => "None"
  | .list l => "[" ++ String.intercalate ", " (l.attach.map (fun x => pyStr x.1)) ++ "]"
  | .dict kvs =>
      "\x7b" ++
        String.intercalate ", "
          (kvs.attach.map (fun x =>
            String.singleton (Char.ofNat 39) ++ x.1.1 ++ String.singleton (Char.ofNat 39)
              ++ ": " ++ pyStr x.1.2)) ++
      "\x7d"
decreasing_by
  · have := List.sizeOf_lt_of_mem x.2
    simp only [PyVal.list.sizeOf_spec]
    omega
  · have h1 := List.sizeOf_lt_of_mem x.2
    have h2 : sizeOf x.1.2 < sizeOf x.1 := by
      obtain ⟨a, b⟩ := x.1
      simp
    simp only [PyVal.dict.sizeOf_spec]
    omega

/-! ## Whitespace collapsing (`re.sub(r'\s+', ' ', text)`) -/

/-- A whitespace character as matched by the regex class `\s` (the ASCII
members; the characters `'\x0b'` and `'\x0c'` are vertical tab and form
feed). -/
def isPySpace (c : Char) : Bool :=
  c == ' ' || c == '\t' || c == '\n' || c == '\x0d' ||
    c == Char.ofNat 11 || c == Char.ofNat 12

/-- `re.sub(r'\s+', ' ', ·)` on the character list: every maximal run of
whitespace characters is replaced by a single space. -/
def collapseWs : List Char → List Char
  | [] => []
  | c :: cs =>
      if isPySpace c then ' ' :: collapseWs (cs.dropWhile isPySpace)
      else c :: collapseWs cs
termination_by l => l.length
decreasing_by
  · have hle : (cs.dropWhile isPySpace).length ≤ cs.length := by
      induction cs with
      | nil => simp
      | cons d ds ih =>
        by_cases h : isPySpace d
        · rw [List.dropWhile_cons_of_pos h]
          exact Nat.le_succ_of_le ih
        · rw [List.dropWhile_cons_of_neg h]
    simp only [List.length_cons]
    omega
  · simp

/-- `re.sub(r'\s+', ' ', s)` on strings. -/
def collapse_ws (s : String) : String := (collapseWs s.toList).asString

/-! ## HTTP fetcher model: `get_response` -/

/-- The parts of a `requests.Response` the script reads. -/
structure Response where
  status_code : Nat
  content : List Nat
deriving Repr, DecidableEq

/-- Outcome of a single `requests.get` call. -/
inductive AttemptOutcome where
  /-- `requests.exceptions.RequestException` was raised (connection error,
  timeout, ...). -/
  | exn : AttemptOutcome
  /-- A response object came back (any status code). -/
  | resp : Response → AttemptOutcome
deriving Repr, DecidableEq

/-- Externally visible events of `get_response`, in order. -/
inductive HttpEvent where
  /-- One `requests.get(url, ...)` call. -/
  | httpAttempt : HttpEvent
  /-- One `time.sleep(secs)` call. -/
  | sleepFor : Nat → HttpEvent
deriving Repr, DecidableEq

/-- `requests.codes.ok`. -/
def STATUS_OK : Nat := 200

/-- The `for attempt in range(0, MAX_RETRIES)` loop of `get_response`:
`i` is the next attempt index, `rem` the remaining iterations.  Returns the
function result (`none` models the Python return value `False`) paired with
the trace of HTTP attempts and sleeps.  On an exception the loop sleeps and
retries; on a response it sleeps, then returns failure for a non-ok status
and the response otherwise; falling out of the loop returns failure. -/
def getResponseLoop (attempts : Nat → AttemptOutcome) (i : Nat) :
    Nat → Option Response × List HttpEvent
  | 0 => (none, [])
  | rem + 1 =>
      match attempts i with
      | .exn =>
          let rest := getResponseLoop attempts (i + 1) rem
          (rest.1, .httpAttempt :: .sleepFor SLEEP_TIME :: rest.2)
      | .resp r =>
          if r.status_code ≠ STATUS_OK then
            (none, [.httpAttempt, .sleepFor SLEEP_TIME])
          else
            (some r, [.httpAttempt, .sleepFor SLEEP_TIME])

/-- `get_response(url, params)`, abstracted over the outcome of each
`requests.get` attempt. -/
def get_response (attempts : Nat → AttemptOutcome) :
    Option Response × List HttpEvent :=
  getResponseLoop attempts 0 MAX_RETRIES

/-! ## Pagination reader: `get_page_count` -/

/-- `get_page_count(json)`: reads `json['data']['pagination']['numberOfPages']`
inside a `try`; any raised exception is caught and the function returns
`False`, modelled as `none`. -/
def get_page_count (json : PyVal) : Option PyVal :=
  ((json.getItem "data").bind (fun d => d.getItem "pagination")).bind
    (fun p => p.getItem "numberOfPages")

/-! ## Item extractor: `get_items` -/

/-- One entry of the list returned by `get_items`: the dictionary built in
the loop body.  `name` and `price` hold whatever Python value the payload
carried (the code stores them without conversion); `url`, `image` and
`description` are genuine strings because the code builds them by string
concatenation and regex substitution. -/
structure Item where
  name : PyVal
  url : String
  description : String
  price : PyVal
  image : String
deriving Repr

/-- The `try` body of the `get_items` loop for a single raw entry, in source
order: `name`, `BASE_URL + url`, `price['formattedValue']`,
`'https:' + images[0]['url']`, then the soup-stripped, whitespace-collapsed
`description`.  `none` models any exception caught by the surrounding
`except`, which skips the entry. -/
def extractItem (stripHtml : String → String) (item : PyVal) : Option Item := do
  let nameVal ← item.getItem "name"
  let urlVal ← item.getItem "url"
  let urlStr ← urlVal.asStr
  let priceVal ← item.getItem "price"
  let fmtVal ← priceVal.getItem "formattedValue"
  let imagesVal ← item.getItem "images"
  let image0 ← imagesVal.index 0
  let imageUrlVal ← image0.getItem "url"
  let imageUrlStr ← imageUrlVal.asStr
  let descVal ← item.getItem "description"
  let descStr ← descVal.asStr
  pure
    { name := nameVal
      url := BASE_URL ++ urlStr
      description := collapse_ws (stripHtml descStr)
      price := fmtVal
      image := "https:" ++ imageUrlStr }

/-- `get_items(json)`: iterates `json['data']['results']`, skipping entries
whose extraction raises (those are logged and dropped) and collecting the
rest in order.  The subscripts `json['data']['results']` and the `for`
statement itself are outside the `try`, so a failure there propagates as an
uncaught exception out of `get_items`, modelled by `Except.error ()`. -/
def get_items (stripHtml : String → String) (json : PyVal) :
    Except Unit (List Item) :=
  match (json.getItem "data").bind (fun d => d.getItem "results") with
  | none => .error ()
  | some resultsVal =>
      match resultsVal with
      | .list entries => .ok (entries.filterMap (extractItem stripHtml))
      | .dict kvs => .ok ((kvs.map (fun p => PyVal.str p.1)).filterMap
          (extractItem stripHtml))
      | .str s => .ok ((s.toList.map (fun c => PyVal.str (String.singleton c))).filterMap
          (extractItem stripHtml))
      | _ => .error ()

/-! ## Image downloader: `save_image` -/

/-- The image files on disk: newest binding first, as produced by each
`open(filename, 'wb')`. -/
abbrev Fs : Type := List (String × List Nat)

/-- The content of the file at `path`, `none` when no such file exists. -/
def getFile (fs : Fs) (path : String) : Option (List Nat) :=
  (fs.find? (fun p => p.1 = path)).map (fun p => p.2)

/-- `open(path, 'wb')` followed by writing `content`: creates or truncates
the file, then leaves `content` in it. -/
def setFile (fs : Fs) (path : String) (content : List Nat) : Fs :=
  (path, content) :: fs

/-- `save_image(url, filename)` given `r = get_response(url)` and an oracle
bit `openOk` telling whether `open(filename, 'wb')` succeeds.  When the open
raises `OSError`, the `except OSError` arm catches it (nothing written) and
the function returns normally.  Otherwise the open truncates the file first;
then `f.write(r.content)` runs: when the fetch failed (`r` is `False`),
`r.content` raises `AttributeError`, which the `except Exception` arm
catches after the `with` block has closed the (empty) file — so the function
still returns normally, leaving a zero-byte file.  On success the response
bytes are written. -/
def save_image (r : Option Response) (openOk : Bool) (filename : String)
    (fs : Fs) : Fs :=
  if openOk then
    let fsOpened := setFile fs filename []
    match r with
    | none => fsOpened
    | some resp => setFile fsOpened filename resp.content
  else fs

/-! ## Record writer: `save_items` -/

/-- The CSV file as a list of rows, each row the list of cell strings the
csv writer joins with the `;` delimiter. -/
abbrev File : Type := List (List String)

/-- The header row written when `first_page` is true:
`['Item name', 'URL', 'Description', 'Price', 'Image']`. -/
def titles : List String := ["Item name", "URL", "Description", "Price", "Image"]

/-- `os.path.join(os.getcwd(), IMAGE_DIR, image_url.split('/')[-1])`. -/
def imageFilename (cwd : String) (image_url : String) : String :=
  cwd ++ "/" ++ IMAGE_DIR ++ "/" ++ ((image_url.splitOn "/").getLastD "")

/-- The row `writerow([item.get(key, '') for key in keys])` writes for one
item, after `item['image']` has been rewritten to
`'file:///' + image_filename`; column order is
`name, url, description, price, image` and each cell is stringified. -/
def rowOfItem (cwd : String) (item : Item) : List String :=
  [pyStr item.name, item.url, item.description, pyStr item.price,
    "file:///" ++ imageFilename cwd item.image]

/-- The per-item loop of `save_items`: download the image (via the
`imageResp` oracle standing for `get_response(image_url)` and the `openOk`
oracle for the binary-write open), rewrite the image field, append the
row. -/
def saveItemsLoop (imageResp : String → Option Response)
    (openOk : String → Bool) (cwd : String) :
    List Item → File → Fs → File × Fs
  | [], file, fs => (file, fs)
  | item :: rest, file, fs =>
      let filename := imageFilename cwd item.image
      let fsNext := save_image (imageResp item.image) (openOk filename)
        filename fs
      saveItemsLoop imageResp openOk cwd rest
        (file ++ [rowOfItem cwd item]) fsNext

/-- `save_items(items, filename, first_page)`: opens the CSV file in
overwrite mode when `first_page` (truncating it and writing the header row
first), else in append mode, then runs the per-item loop. -/
def save_items (imageResp : String → Option Response)
    (openOk : String → Bool) (cwd : String)
    (items : List Item) (file : File) (first_page : Bool) (fs : Fs) :
    File × Fs :=
  saveItemsLoop imageResp openOk cwd items
    (if first_page then [titles] else file) fs

/-! ## Orchestrator: `scrape` -/

/-- The environment a run of `scrape` observes: per-page `get_json` results,
per-URL image fetch results, the HTML stripper and the working directory. -/
structure ScrapeEnv where
  getJson : Nat → Option PyVal
  imageResp : String → Option Response
  imageOpenOk : String → Bool
  stripHtml : String → String
  cwd : String

/-- How a run of `scrape` ends: normal completion (`Scraping process done.`),
an early `return` after a fatal error message, or an uncaught exception
(`get_items` raising outside any handler, or `range()` applied to a
non-integer page count). -/
inductive Outcome where
  | done : Outcome
  | failed : Outcome
  | crashed : Outcome
deriving Repr, DecidableEq

/-- Result of a `scrape` run: how it ended, the CSV file rows, the image
files, and how many iterations of the page loop were entered. -/
structure ScrapeResult where
  outcome : Outcome
  file : File
  fs : Fs
  loopIters : Nat

/-- The `for page in range(0, page_count)` loop of `scrape`: `rem` pages
remain, `page` is the next index.  Page 0 reuses the JSON already fetched
(`json`); later pages call `get_json(page)` afresh and a falsy result is
fatal (`return`).  Each page's items are extracted and written with
`first_page = (page == 0)`. -/
def scrapeLoop (env : ScrapeEnv) :
    Nat → Nat → PyVal → File → Fs → Nat → ScrapeResult
  | 0, _, _, file, fs, iters => ⟨.done, file, fs, iters⟩
  | rem + 1, page, json, file, fs, iters =>
      if page = 0 then
        match get_items env.stripHtml json with
        | .error _ => ⟨.crashed, file, fs, iters + 1⟩
        | .ok items =>
            let out := save_items env.imageResp env.imageOpenOk env.cwd
              items file true fs
            scrapeLoop env rem (page + 1) json out.1 out.2 (iters + 1)
      else
        match env.getJson page with
        | none => ⟨.failed, file, fs, iters + 1⟩
        | some pageJson =>
            match get_items env.stripHtml pageJson with
            | .error _ => ⟨.crashed, file, fs, iters + 1⟩
            | .ok items =>
                let out := save_items env.imageResp env.imageOpenOk env.cwd
                  items file false fs
                scrapeLoop env rem (page + 1) pageJson out.1 out.2 (iters + 1)

/-- `scrape()`: fetch page 0 (falsy result is fatal), read the page count
(falsy result — including `False` from a caught exception and a count of
zero — is fatal), then run the page loop.  `initFile` and `initFs` are the
pre-existing CSV file and image files; `range(0, page_count)` applied to a
non-integer truthy count raises `TypeError`, modelled as `.crashed`. -/
def scrape (env : ScrapeEnv) (initFile : File) (initFs : Fs) : ScrapeResult :=
  match env.getJson 0 with
  | none => ⟨.failed, initFile, initFs, 0⟩
  | some json =>
      match get_page_count json with
      | none => ⟨.failed, initFile, initFs, 0⟩
      | some countVal =>
          if pyTruthy countVal then
            match countVal with
            | .int n => scrapeLoop env n.toNat 0 json initFile initFs 0
            | _ => ⟨.crashed, initFile, initFs, 0⟩
          else ⟨.failed, initFile, initFs, 0⟩

/-! ## Concrete fixtures

Small payloads in the API's shape, used to evaluate the theorems at
concrete inputs. -/

/-- A raw product entry with every field the extractor reads. -/
def itemShoe : PyVal := .dict [
  ("name", .str "Shoe"),
  ("url", .str "/shoe"),
  ("price", .dict [("formattedValue", .str "£9.99")]),
  ("images", .list [.dict [("url", .str "//img.example/shoe.jpg")]]),
  ("description", .str "A  nice\tshoe")]

/-- A second well-formed raw product entry. -/
def itemBoot : PyVal := .dict [
  ("name", .str "Boot"),
  ("url", .str "/boot"),
  ("price", .dict [("formattedValue", .str "£19.99")]),
  ("images", .list [.dict [("url", .str "//img.example/boot.jpg")]]),
  ("description", .str "A boot")]

/-- A raw product entry whose nested image list is empty. -/
def itemNoImages : PyVal := .dict [
  ("name", .str "Ghost"),
  ("url", .str "/ghost"),
  ("price", .dict [("formattedValue", .str "£0.01")]),
  ("images", .list []),
  ("description", .str "gone")]

/-- The record `get_items` builds from `itemShoe`. -/
def shoeRecord : Item :=
  { name := .str "Shoe"
    url := BASE_URL ++ "/shoe"
    description := "A nice shoe"
    price := .str "£9.99"
    image := "https://img.example/shoe.jpg" }

/-- The record `get_items` builds from `itemBoot`. -/
def bootRecord : Item :=
  { name := .str "Boot"
    url := BASE_URL ++ "/boot"
    description := "A boot"
    price := .str "£19.99"
    image := "https://img.example/boot.jpg" }

/-- A page payload in the API's shape: success flag, pagination block with
the given page count, and the given results list. -/
def pageJson (numPages : Int) (results : List PyVal) : PyVal := .dict [
  ("success", .bool true),
  ("data", .dict [
    ("pagination", .dict [("numberOfPages", .int numPages)]),
    ("results", .list results)])]

/-- A two-page run whose fetches all succeed. -/
def envTwoPages : ScrapeEnv :=
  { getJson := fun n =>
      if n = 0 then some (pageJson 2 [itemShoe])
      else if n = 1 then some (pageJson 2 [itemBoot])
      else none
    imageResp := fun _ => none
    imageOpenOk := fun _ => true
    stripHtml := fun s => s
    cwd := "/cwd" }

/-- Per-page payloads of `envTwoPages`. -/
def jsTwoPages : Nat → PyVal := fun n =>
  if n = 0 then pageJson 2 [itemShoe] else pageJson 2 [itemBoot]

/-- Per-page extracted records of `envTwoPages`. -/
def itsTwoPages : Nat → List Item := fun n =>
  if n = 0 then [shoeRecord] else [bootRecord]

/-- A three-page run in which the fetch of page 1 fails. -/
def envPageOneFails : ScrapeEnv :=
  { getJson := fun n => if n = 0 then some (pageJson 3 [itemShoe]) else none
    imageResp := fun _ => none
    imageOpenOk := fun _ => true
    stripHtml := fun s => s
    cwd := "/cwd" }

/-- A run whose first page reports a page count of zero. -/
def envZeroPages : ScrapeEnv :=
  { getJson := fun n => if n = 0 then some (pageJson 0 []) else none
    imageResp := fun _ => none
    imageOpenOk := fun _ => true
    stripHtml := fun s => s
    cwd := "/cwd" }

/-! ## Helper lemmas -/

theorem collapseWs_nil : collapseWs [] = [] := by
  simp [collapseWs]

theorem collapseWs_cons_pos {c : Char} {cs : List Char} (h : isPySpace c = true) :
    collapseWs (c :: cs) = ' ' :: collapseWs (cs.dropWhile isPySpace) := by
  rw [collapseWs]
  simp [h]

theorem collapseWs_cons_neg {c : Char} {cs : List Char} (h : isPySpace c = false) :
    collapseWs (c :: cs) = c :: collapseWs cs := by
  rw [collapseWs]
  simp [h]

theorem dropWhile_head_false (p : Char → Bool) :
    ∀ l : List Char, l.dropWhile p = [] ∨
      ∃ d ds, l.dropWhile p = d :: ds ∧ p d = false := by
  intro l
  induction l with
  | nil => exact Or.inl rfl
  | cons c cs ih =>
    by_cases h : p c
    · rw [List.dropWhile_cons_of_pos h]
      exact ih
    · exact Or.inr ⟨c, cs, List.dropWhile_cons_of_neg h, by simpa using h⟩

theorem isPySpace_space : isPySpace ' ' = true := rfl

theorem collapseWs_idem : ∀ l : List Char, collapseWs (collapseWs l) = collapseWs l := by
  intro l
  induction l using collapseWs.induct with
  | case1 => simp [collapseWs_nil]
  | case2 c cs h ih =>
    rw [collapseWs_cons_pos h, collapseWs_cons_pos isPySpace_space]
    rcases dropWhile_head_false isPySpace cs with hnil | ⟨d, ds, hcons, hd⟩
    · rw [hnil] at ih ⊢
      simp [collapseWs_nil]
    · rw [hcons] at ih ⊢
      rw [collapseWs_cons_neg hd] at ih ⊢
      rw [List.dropWhile_cons_of_neg (by simp [hd])]
      exact congrArg _ ih
  | case3 c cs h ih =>
    have hcf : isPySpace c = false := by simpa using h
    rw [collapseWs_cons_neg hcf, collapseWs_cons_neg hcf, ih]

theorem saveItemsLoop_file (imageResp : String → Option Response)
    (openOk : String → Bool) (cwd : String) :
    ∀ (items : List Item) (file : File) (fs : Fs),
      (saveItemsLoop imageResp openOk cwd items file fs).1 =
        file ++ items.map (rowOfItem cwd) := by
  intro items
  induction items with
  | nil => intro file fs; simp [saveItemsLoop]
  | cons item rest ih =>
    intro file fs
    rw [saveItemsLoop, ih]
    simp

theorem save_items_file (imageResp : String → Option Response)
    (openOk : String → Bool) (cwd : String)
    (items : List Item) (file : File) (first_page : Bool) (fs : Fs) :
    (save_items imageResp openOk cwd items file first_page fs).1 =
      (if first_page then [titles] else file) ++ items.map (rowOfItem cwd) :=
  saveItemsLoop_file imageResp openOk cwd items _ fs

theorem getFile_setFile (fs : Fs) (path other : String) (content : List Nat) :
    getFile (setFile fs path content) other =
      if path = other then some content else getFile fs other := by
  by_cases h : path = other <;> simp [getFile, setFile, List.find?, h]

theorem saveItemsLoop_fs_preserve (cwd : String) :
    ∀ (items : List Item) (file : File) (fs : Fs) (path : String),
      getFile fs path = some [] →
      getFile ((saveItemsLoop (fun _ => none) (fun _ => true) cwd
        items file fs).2) path = some [] := by
  intro items
  induction items with
  | nil => intro file fs path h; simpa [saveItemsLoop] using h
  | cons item rest ih =>
    intro file fs path h
    rw [saveItemsLoop]
    apply ih
    show getFile (setFile fs (imageFilename cwd item.image) []) path = some []
    rw [getFile_setFile]
    by_cases heq : imageFilename cwd item.image = path <;> simp [heq, h]

theorem saveItemsLoop_fs_mem (cwd : String) :
    ∀ (items : List Item) (file : File) (fs : Fs) (it : Item),
      it ∈ items →
      getFile ((saveItemsLoop (fun _ => none) (fun _ => true) cwd
        items file fs).2) (imageFilename cwd it.image) = some [] := by
  intro items
  induction items with
  | nil => intro _ _ _ hmem; cases hmem
  | cons item rest ih =>
    intro file fs it hmem
    rcases List.mem_cons.mp hmem with heq | hrest
    · subst heq
      rw [saveItemsLoop]
      apply saveItemsLoop_fs_preserve
      show getFile (setFile fs (imageFilename cwd it.image) [])
        (imageFilename cwd it.image) = some []
      rw [getFile_setFile]
      simp
    · rw [saveItemsLoop]
      exact ih _ _ it hrest

theorem scrapeLoop_skip (env : ScrapeEnv) (js : Nat → PyVal) (its : Nat → List Item) :
    ∀ (k rem page : Nat) (json : PyVal) (file : File) (fs : Fs) (iters : Nat),
      k ≤ rem → 1 ≤ page →
      (∀ p, page ≤ p → p < page + k →
          env.getJson p = some (js p) ∧
          get_items env.stripHtml (js p) = .ok (its p)) →
      ∃ json2 fs2,
        scrapeLoop env rem page json file fs iters =
          scrapeLoop env (rem - k) (page + k) json2
            (file ++ (List.range' page k).flatMap
              (fun p => (its p).map (rowOfItem env.cwd)))
            fs2 (iters + k) := by
  intro k
  induction k with
  | zero =>
    intro rem page json file fs iters _ _ _
    exact ⟨json, fs, by simp⟩
  | succ k ih =>
    intro rem page json file fs iters hk hp h
    obtain ⟨r, rfl⟩ : ∃ r, rem = r + 1 := ⟨rem - 1, by omega⟩
    have hfetch := (h page (Nat.le_refl _) (by omega)).1
    have hitems := (h page (Nat.le_refl _) (by omega)).2
    have hpage0 : ¬ page = 0 := by omega
    obtain ⟨json2, fs2, heq⟩ := ih r (page + 1)
      (js page) (file ++ (its page).map (rowOfItem env.cwd))
      (save_items env.imageResp env.imageOpenOk env.cwd (its page)
        file false fs).2
      (iters + 1) (by omega) (by omega)
      (fun p hp1 hp2 => h p (by omega) (by omega))
    refine ⟨json2, fs2, ?_⟩
    have hstep : scrapeLoop env (r + 1) page json file fs iters =
        scrapeLoop env r (page + 1) (js page)
          (file ++ (its page).map (rowOfItem env.cwd))
          (save_items env.imageResp env.imageOpenOk env.cwd (its page)
            file false fs).2
          (iters + 1) := by
      simp only [scrapeLoop, if_neg hpage0, hfetch, hitems]
      rw [save_items_file]
      simp
    rw [hstep, heq, List.range'_succ _ _ 1, List.flatMap_cons]
    have harith1 : r - k = r + 1 - (k + 1) := by omega
    have harith2 : page + 1 + k = page + (k + 1) := by omega
    have harith3 : iters + 1 + k = iters + (k + 1) := by omega
    rw [harith1, harith2, harith3, List.append_assoc]

theorem scrape_unfold_loop (env : ScrapeEnv) (j0 : PyVal) (N : Nat)
    (initFile : File) (initFs : Fs)
    (h0 : env.getJson 0 = some j0)
    (hpc : get_page_count j0 = some (.int (N : Int)))
    (hN : 0 < N) :
    scrape env initFile initFs = scrapeLoop env N 0 j0 initFile initFs 0 := by
  have htruthy : pyTruthy (.int (N : Int)) = true := by
    simp only [pyTruthy, bne_iff_ne, ne_eq]
    omega
  simp only [scrape, h0, hpc, htruthy, if_pos, Int.toNat_natCast]

theorem scrapeLoop_step0 (env : ScrapeEnv) (j0 : PyVal) (its0 : List Item)
    (m : Nat) (file : File) (fs : Fs) (iters : Nat)
    (hx : get_items env.stripHtml j0 = .ok its0) :
    scrapeLoop env (m + 1) 0 j0 file fs iters =
      scrapeLoop env m 1 j0 (titles :: its0.map (rowOfItem env.cwd))
        (save_items env.imageResp env.imageOpenOk env.cwd its0
          file true fs).2 (iters + 1) := by
  simp only [scrapeLoop, if_pos rfl, hx]
  rw [save_items_file]
  simp

/-! ## Claim theorems -/

/-- C1: for every run in which pages `0..N-1` are all fetched successfully
(and each page's payload extracts without an uncaught exception), the run
completes and the output file is exactly one header row followed by one data
row per successfully extracted item, rows ordered by page index and, within
a page, by the item's position in that page's results list. -/
theorem claim_C1_output_shape (env : ScrapeEnv) (js : Nat → PyVal)
    (its : Nat → List Item) (N : Nat) (initFile : File) (initFs : Fs)
    (hpc : get_page_count (js 0) = some (.int (N : Int)))
    (hN : 0 < N)
    (hj : ∀ n, n < N → env.getJson n = some (js n))
    (hx : ∀ n, n < N → get_items env.stripHtml (js n) = .ok (its n)) :
    (scrape env initFile initFs).outcome = .done ∧
    (scrape env initFile initFs).file =
      titles :: (List.range N).flatMap
        (fun p => (its p).map (rowOfItem env.cwd)) := by
  obtain ⟨m, rfl⟩ : ∃ m, N = m + 1 := ⟨N - 1, by omega⟩
  rw [scrape_unfold_loop env (js 0) (m + 1) initFile initFs (hj 0 hN) hpc hN]
  rw [scrapeLoop_step0 env (js 0) (its 0) m initFile initFs 0 (hx 0 hN)]
  obtain ⟨json2, fs2, heq⟩ := scrapeLoop_skip env js its m m 1 (js 0)
    (titles :: (its 0).map (rowOfItem env.cwd))
    (save_items env.imageResp env.imageOpenOk env.cwd (its 0)
      initFile true initFs).2
    1 (Nat.le_refl m) (Nat.le_refl 1)
    (fun p h1 h2 => ⟨hj p (by omega), hx p (by omega)⟩)
  rw [heq, Nat.sub_self]
  constructor
  · rfl
  · show (titles :: (its 0).map (rowOfItem env.cwd)) ++
        (List.range' 1 m).flatMap (fun p => (its p).map (rowOfItem env.cwd)) = _
    rw [List.range_eq_range' (m + 1), List.range'_succ _ _ 1, List.flatMap_cons]
    simp

/-- C4: if pages `0..n-1` are fetched and written but the fetch of page `n`
(with `0 < n < N`) fails, the run ends in the failed state with the output
file holding exactly the header row and the rows of pages `0..n-1` — nothing
of pages `n..N-1` is written, and the earlier rows remain. -/
theorem claim_C4_halt_on_page_failure (env : ScrapeEnv) (js : Nat → PyVal)
    (its : Nat → List Item) (N n : Nat) (initFile : File) (initFs : Fs)
    (hpc : get_page_count (js 0) = some (.int (N : Int)))
    (hn0 : 0 < n) (hnN : n < N)
    (hj : ∀ m, m < n → env.getJson m = some (js m))
    (hx : ∀ m, m < n → get_items env.stripHtml (js m) = .ok (its m))
    (hfail : env.getJson n = none) :
    (scrape env initFile initFs).outcome = .failed ∧
    (scrape env initFile initFs).file =
      titles :: (List.range n).flatMap
        (fun p => (its p).map (rowOfItem env.cwd)) := by
  obtain ⟨m, rfl⟩ : ∃ m, N = m + 1 := ⟨N - 1, by omega⟩
  rw [scrape_unfold_loop env (js 0) (m + 1) initFile initFs (hj 0 hn0) hpc
    (by omega)]
  rw [scrapeLoop_step0 env (js 0) (its 0) m initFile initFs 0 (hx 0 hn0)]
  obtain ⟨json2, fs2, heq⟩ := scrapeLoop_skip env js its (n - 1) m 1 (js 0)
    (titles :: (its 0).map (rowOfItem env.cwd))
    (save_items env.imageResp env.imageOpenOk env.cwd (its 0)
      initFile true initFs).2
    1 (by omega) (Nat.le_refl 1)
    (fun p h1 h2 => ⟨hj p (by omega), hx p (by omega)⟩)
  rw [heq]
  have h1n : 1 + (n - 1) = n := by omega
  obtain ⟨r, hr⟩ : ∃ r, m - (n - 1) = r + 1 := ⟨m - (n - 1) - 1, by omega⟩
  rw [h1n, hr]
  have hstep : ∀ iters, scrapeLoop env (r + 1) n json2
      ((titles :: (its 0).map (rowOfItem env.cwd)) ++
        (List.range' 1 (n - 1)).flatMap (fun p => (its p).map (rowOfItem env.cwd)))
      fs2 iters =
      ⟨.failed,
        (titles :: (its 0).map (rowOfItem env.cwd)) ++
          (List.range' 1 (n - 1)).flatMap (fun p => (its p).map (rowOfItem env.cwd)),
        fs2, iters + 1⟩ := by
    intro iters
    simp only [scrapeLoop, if_neg (by omega : ¬ n = 0), hfail]
  rw [hstep]
  refine ⟨rfl, ?_⟩
  show (titles :: (its 0).map (rowOfItem env.cwd)) ++
      (List.range' 1 (n - 1)).flatMap (fun p => (its p).map (rowOfItem env.cwd)) = _
  obtain ⟨q, rfl⟩ : ∃ q, n = q + 1 := ⟨n - 1, by omega⟩
  rw [List.range_eq_range' (q + 1), List.range'_succ _ _ 1, List.flatMap_cons]
  simp

/-- C7: when the first page's JSON yields a falsy page count (for example
zero), `scrape` reports a fatal error and returns: the outcome is failed,
the CSV file and image files are untouched, and the page loop is never
entered. -/
theorem claim_C7_falsy_page_count_fatal (env : ScrapeEnv) (j0 countVal : PyVal)
    (initFile : File) (initFs : Fs)
    (h0 : env.getJson 0 = some j0)
    (hpc : get_page_count j0 = some countVal)
    (hfalsy : pyTruthy countVal = false) :
    (scrape env initFile initFs).outcome = .failed ∧
    (scrape env initFile initFs).file = initFile ∧
    (scrape env initFile initFs).fs = initFs ∧
    (scrape env initFile initFs).loopIters = 0 := by
  simp only [scrape, h0, hpc, hfalsy]
  exact ⟨rfl, rfl, rfl, rfl⟩

theorem getResponseLoop_all_exn (attempts : Nat → AttemptOutcome) :
    ∀ rem i, (∀ k, k < rem → attempts (i + k) = .exn) →
      getResponseLoop attempts i rem =
        (none, (List.replicate rem
          [HttpEvent.httpAttempt, HttpEvent.sleepFor SLEEP_TIME]).flatten) := by
  intro rem
  induction rem with
  | zero => intro i _; simp [getResponseLoop]
  | succ rem ih =>
    intro i h
    have hi : attempts i = .exn := by simpa using h 0 (by omega)
    rw [getResponseLoop, hi]
    rw [ih (i + 1) (fun k hk => by
      rw [Nat.add_assoc]
      exact h (1 + k) (by omega))]
    simp [List.replicate_succ]

/-- C2: when every `requests.get` attempt raises a transport-level
exception, `get_response` returns failure after exactly `MAX_RETRIES`
attempts, and the event trace is `MAX_RETRIES` repetitions of an attempt
immediately followed by a `SLEEP_TIME` delay — so every attempt is followed
by the delay before the next action. -/
theorem claim_C2_retry_exhaustion (attempts : Nat → AttemptOutcome)
    (h : ∀ i, i < MAX_RETRIES → attempts i = .exn) :
    get_response attempts =
      (none, (List.replicate MAX_RETRIES
        [HttpEvent.httpAttempt, HttpEvent.sleepFor SLEEP_TIME]).flatten) ∧
    (get_response attempts).2.count HttpEvent.httpAttempt = MAX_RETRIES := by
  have heq : get_response attempts =
      (none, (List.replicate MAX_RETRIES
        [HttpEvent.httpAttempt, HttpEvent.sleepFor SLEEP_TIME]).flatten) :=
    getResponseLoop_all_exn attempts MAX_RETRIES 0
      (fun k hk => by simpa using h k hk)
  exact ⟨heq, by rw [heq]; rfl⟩

/-- C3 counterexample: `get_items` does fail as a whole on a payload with no
`'data'` key — the subscript `json['data']['results']` sits outside the
per-item `try`, so the `KeyError` propagates out of the function instead of
a list being returned. -/
theorem claim_C3_counterexample :
    get_items (fun s => s) (PyVal.dict []) = .error () := rfl

/-- C3 (amended): provided `json['data']['results']` is present and is a
list, extraction never fails as a whole: every entry whose required fields
are missing or malformed is skipped and extraction continues, returning
exactly the list of successfully extracted items in order. -/
theorem claim_C3_no_whole_failure (stripHtml : String → String)
    (json dataVal : PyVal) (entries : List PyVal)
    (hd : json.getItem "data" = some dataVal)
    (hr : dataVal.getItem "results" = some (.list entries)) :
    get_items stripHtml json = .ok (entries.filterMap (extractItem stripHtml)) := by
  simp [get_items, hd, hr]

/-- C5: with `first_page` true the CSV file is truncated — whatever it held
before, afterwards it is exactly the header row followed by this batch's
rows — and with `first_page` false the rows are appended to the existing
content with no header; the header row joined by the `;` delimiter reads
`Item name;URL;Description;Price;Image`. -/
theorem claim_C5_modes_and_header (imageResp : String → Option Response)
    (openOk : String → Bool) (cwd : String) (items : List Item)
    (file : File) (fs : Fs) :
    (save_items imageResp openOk cwd items file true fs).1 =
      titles :: items.map (rowOfItem cwd) ∧
    (save_items imageResp openOk cwd items file false fs).1 =
      file ++ items.map (rowOfItem cwd) ∧
    String.intercalate ";" titles = "Item name;URL;Description;Price;Image" := by
  refine ⟨?_, ?_, rfl⟩
  · rw [save_items_file]
    simp
  · rw [save_items_file]
    simp

/-- C6: whatever the image downloads do — every fetch may fail
(`imageResp` arbitrary, e.g. constantly the failure value) and every
binary-write open may fail too (`openOk` arbitrary) — `save_items` still
writes one CSV row per record, each with its image cell rewritten to
`'file:///' +` the intended local path, as `rowOfItem` does, and processing
continues through the whole batch.  Moreover when the opens succeed but
every fetch fails, each intended image path ends up as an empty file. -/
theorem claim_C6_rows_survive_image_failure (imageResp : String → Option Response)
    (openOk : String → Bool) (cwd : String) (items : List Item)
    (file : File) (first_page : Bool) (fs : Fs) :
    (save_items imageResp openOk cwd items file first_page fs).1 =
      (if first_page then [titles] else file) ++ items.map (rowOfItem cwd) ∧
    ∀ it, it ∈ items →
      getFile ((save_items (fun _ => none) (fun _ => true) cwd
        items file first_page fs).2)
        (imageFilename cwd it.image) = some [] :=
  ⟨save_items_file _ _ _ _ _ _ _,
    fun it hmem => saveItemsLoop_fs_mem cwd items _ fs it hmem⟩

theorem extractItem_empty_images (stripHtml : String → String) (item : PyVal)
    (h : item.getItem "images" = some (.list [])) :
    extractItem stripHtml item = none := by
  rcases hn : item.getItem "name" with _ | nameVal
  · simp [extractItem, hn]
  rcases hu : item.getItem "url" with _ | urlVal
  · simp [extractItem, hn, hu]
  rcases hus : urlVal.asStr with _ | urlStr
  · simp [extractItem, hn, hu, hus]
  rcases hp : item.getItem "price" with _ | priceVal
  · simp [extractItem, hn, hu, hus, hp]
  rcases hf : priceVal.getItem "formattedValue" with _ | fmtVal
  · simp [extractItem, hn, hu, hus, hp, hf]
  simp [extractItem, hn, hu, hus, hp, hf, h, PyVal.index]

/-- C8: an entry whose nested image list is empty is skipped — it
contributes no record — while every other entry of the same page is still
extracted in order. -/
theorem claim_C8_empty_image_list_skipped (stripHtml : String → String)
    (json dataVal bad : PyVal) (es1 es2 : List PyVal)
    (hd : json.getItem "data" = some dataVal)
    (hr : dataVal.getItem "results" = some (.list (es1 ++ bad :: es2)))
    (hbad : bad.getItem "images" = some (.list [])) :
    get_items stripHtml json =
      .ok (es1.filterMap (extractItem stripHtml) ++
        es2.filterMap (extractItem stripHtml)) := by
  have hskip := extractItem_empty_images stripHtml bad hbad
  simp [get_items, hd, hr, List.filterMap_append, List.filterMap_cons, hskip]

/-- C9: the whitespace-collapsing transformation applied to the description
field is idempotent: applying it twice yields the same string as applying
it once. -/
theorem claim_C9_collapse_idempotent (s : String) :
    collapse_ws (collapse_ws s) = collapse_ws s := by
  show ((collapseWs ((collapseWs s.toList).asString).toList).asString) = _
  rw [show ((collapseWs s.toList).asString).toList = collapseWs s.toList from rfl]
  rw [collapseWs_idem]
  rfl

/-- C10: when the fetch behind `save_image` fails, the destination file is
still opened in binary write mode before the failure surfaces: the function
leaves an empty (zero-byte) file at the path, overwriting whatever was
there, and returns normally (in the model, `save_image` is a total function
— the `AttributeError` from `r.content` is caught).  For contrast, a
successful fetch leaves the response bytes. -/
theorem claim_C10_failed_fetch_leaves_empty_file (fs : Fs) (filename : String) :
    save_image none true filename fs = setFile fs filename [] ∧
    getFile (save_image none true filename fs) filename = some [] ∧
    ∀ r : Response,
      getFile (save_image (some r) true filename fs) filename = some r.content := by
  refine ⟨rfl, ?_, ?_⟩
  · show getFile (setFile fs filename []) filename = some []
    rw [getFile_setFile]
    simp
  · intro r
    show getFile (setFile (setFile fs filename []) filename r.content) filename = _
    rw [getFile_setFile]
    simp

/-! ## Witnesses: the claim theorems applied at concrete inputs -/

theorem claim_C1_witness :
    (scrape envTwoPages [] []).outcome = .done ∧
    (scrape envTwoPages [] []).file =
      titles :: (List.range 2).flatMap
        (fun p => (itsTwoPages p).map (rowOfItem envTwoPages.cwd)) :=
  claim_C1_output_shape envTwoPages jsTwoPages itsTwoPages 2 [] []
    rfl (by decide)
    (fun n hn => by interval_cases n <;> rfl)
    (fun n hn => by
      interval_cases n <;>
        · simp [envTwoPages, jsTwoPages, itsTwoPages, get_items, pageJson,
            itemShoe, itemBoot, PyVal.getItem, List.find?, extractItem,
            PyVal.index, PyVal.asStr, collapse_ws, collapseWs, isPySpace,
            shoeRecord, bootRecord, BASE_URL]
          rfl)

theorem claim_C2_witness :
    get_response (fun _ => .exn) =
      (none, (List.replicate MAX_RETRIES
        [HttpEvent.httpAttempt, HttpEvent.sleepFor SLEEP_TIME]).flatten) ∧
    (get_response (fun _ => .exn)).2.count HttpEvent.httpAttempt = MAX_RETRIES :=
  claim_C2_retry_exhaustion (fun _ => .exn) (fun _ _ => rfl)

theorem claim_C3_witness :
    get_items (fun s => s) (pageJson 1 [itemShoe, itemNoImages]) =
      .ok ([itemShoe, itemNoImages].filterMap (extractItem (fun s => s))) :=
  claim_C3_no_whole_failure (fun s => s) (pageJson 1 [itemShoe, itemNoImages])
    _ [itemShoe, itemNoImages] rfl rfl

theorem claim_C4_witness :
    (scrape envPageOneFails [] []).outcome = .failed ∧
    (scrape envPageOneFails [] []).file =
      titles :: (List.range 1).flatMap
        (fun _ => [shoeRecord].map (rowOfItem envPageOneFails.cwd)) :=
  claim_C4_halt_on_page_failure envPageOneFails
    (fun _ => pageJson 3 [itemShoe]) (fun _ => [shoeRecord]) 3 1 [] []
    rfl (by decide) (by decide)
    (fun m hm => by interval_cases m; rfl)
    (fun m hm => by
      interval_cases m
      simp [envPageOneFails, get_items, pageJson, itemShoe, PyVal.getItem,
        List.find?, extractItem, PyVal.index, PyVal.asStr, collapse_ws,
        collapseWs, isPySpace, shoeRecord, BASE_URL]
      rfl)
    rfl

theorem claim_C6_witness :
    (save_items (fun _ => none) (fun _ => true) "/cwd"
        [shoeRecord] [["old"]] true []).1 =
      (if true then [titles] else [["old"]]) ++
        [shoeRecord].map (rowOfItem "/cwd") ∧
    getFile ((save_items (fun _ => none) (fun _ => true) "/cwd"
        [shoeRecord] [["old"]] true []).2)
      (imageFilename "/cwd" shoeRecord.image) = some [] :=
  ⟨(claim_C6_rows_survive_image_failure (fun _ => none) (fun _ => true)
      "/cwd" [shoeRecord] [["old"]] true []).1,
    (claim_C6_rows_survive_image_failure (fun _ => none) (fun _ => true)
      "/cwd" [shoeRecord] [["old"]] true []).2
      shoeRecord (by simp)⟩

theorem claim_C7_witness :
    (scrape envZeroPages [["old"]] []).outcome = .failed ∧
    (scrape envZeroPages [["old"]] []).file = [["old"]] ∧
    (scrape envZeroPages [["old"]] []).fs = [] ∧
    (scrape envZeroPages [["old"]] []).loopIters = 0 :=
  claim_C7_falsy_page_count_fatal envZeroPages (pageJson 0 []) (.int 0)
    [["old"]] [] rfl rfl rfl

theorem claim_C8_witness :
    get_items (fun s => s) (pageJson 1 [itemShoe, itemNoImages, itemBoot]) =
      .ok ([itemShoe].filterMap (extractItem (fun s => s)) ++
        [itemBoot].filterMap (extractItem (fun s => s))) :=
  claim_C8_empty_image_list_skipped (fun s => s)
    (pageJson 1 [itemShoe, itemNoImages, itemBoot]) _ itemNoImages
    [itemShoe] [itemBoot] rfl rfl rfl

end NewLookScraper
